import Mathlib

/-!
Verification of patrole_tempest_plugin/rbac_rule_validation.py.

The file defines a shallow embedding of the module: the attribute-bearing
test object reached through args[0] (getattr traversal), the helper
functions _get_exception_type and _format_extra_target_data, and the
wrapper closure produced by the action decorator. External side effects
(constructing an RbacAuthority, calling get_permission, invoking the
guarded function, and the switch_role call in the finally block) are
recorded as an event trace, so that theorems can speak about which
collaborators were reached and how often.
-/

namespace Rbac

/-- Model of a Python object as seen by getattr: a leaf value (an opaque
string such as a project id) or an object with named attributes. -/
inductive Obj where
  | leaf (s : String)
  | node (fields : List (String × Obj))

/-- Attribute lookup in a field list, first match wins. -/
def lookupField : List (String × Obj) → String → Option Obj
  | [], _ => none
  | (k, v) :: rest, a => if k = a then some v else lookupField rest a

/-- Python getattr on the object model: leaves have no attributes, nodes
look up the named field. -/
def getattr : Obj → String → Option Obj
  | Obj.leaf _, _ => none
  | Obj.node fs, a => lookupField fs a

/-- Iterated getattr along a list of attribute names. Except.error carries
the first missing attribute name (the AttributeError). -/
def getattrChain : Obj → List String → Except String Obj
  | v, [] => Except.ok v
  | v, a :: rest =>
    match getattr v a with
    | some w => getattrChain w rest
    | none => Except.error a

/-- The kind of exception the guarded function raises, mirroring the
exception classes distinguished by the except clauses of wrapper
(rbac_exceptions.RbacInvalidService, rbac_exceptions.RbacActionFailed,
tempest exceptions.Forbidden and exceptions.NotFound, and any other
exception class, identified by its name). -/
inductive ExcKind where
  | forbidden
  | notFound
  | rbacInvalidService
  | rbacActionFailed
  | other (name : String)
deriving DecidableEq

/-- The two exception classes _get_exception_type can return as
expected_exception: exceptions.Forbidden and exceptions.NotFound. -/
inductive ExcType where
  | forbidden
  | notFound
deriving DecidableEq

/-- The raised-exception kind corresponding to an expected exception
class. -/
def kindOf : ExcType → ExcKind
  | ExcType.forbidden => ExcKind.forbidden
  | ExcType.notFound => ExcKind.notFound

/-- Python __name__ of the expected exception class, used in the message
of the reraise branch. -/
def excTypeName : ExcType → String
  | ExcType.forbidden => "Forbidden"
  | ExcType.notFound => "NotFound"

/-- isinstance check of a raised exception against expected_exception in
the clause `except (expected_exception, RbacActionFailed)`. The tempest
Forbidden and NotFound classes are siblings, neither a subclass of the
other. -/
def matchesException : ExcType → ExcKind → Bool
  | ExcType.forbidden, ExcKind.forbidden => true
  | ExcType.notFound, ExcKind.notFound => true
  | _, _ => false

/-- isinstance check against rbac_exceptions.RbacInvalidService. -/
def isInvalidService : ExcKind → Bool
  | ExcKind.rbacInvalidService => true
  | _ => false

/-- isinstance check against rbac_exceptions.RbacActionFailed. -/
def isActionFailed : ExcKind → Bool
  | ExcKind.rbacActionFailed => true
  | _ => false

/-- Result of calling the guarded function func(*args): it returns
normally, or raises an exception of some kind with a message. -/
inductive FuncOutcome where
  | success
  | raises (k : ExcKind) (emsg : String)

/-- External side effects performed by wrapper, in order:
constructing the RbacAuthority, calling authority.get_permission,
invoking the guarded function func(*args), and the
rbac_utils.switch_role call in the finally block. -/
inductive Event where
  | constructAuthority (project_id user_id : Obj) (service : String)
      (extra : List (String × Obj))
  | getPermission (rule rbac_test_role : String)
  | callFunc (args : List Obj)
  | switchRole

/-- How one invocation of wrapper terminates: a normal return (the pass
case), or one of the raised exceptions, each with its message. -/
inductive WrapperResult where
  | ok
  | resourceSetupFailed (msg : String)
  | attributeError (attr : String)
  | invalidErrorCode
  | notFoundInvalidService (msg : String)
  | forbidden (msg : String)
  | overPermission (msg : String)
  | reraised (k : ExcKind) (msg : String)
deriving DecidableEq

/-- One invocation of the wrapper closure: the call arguments together
with the values the closure captured (the decorator parameters, the
CONF.rbac.rbac_test_role option, the authority oracle, and the guarded
function). -/
structure WrapperInput where
  args : List Obj
  kwargs : List (String × Obj)
  arg0_is_test_case : Bool
  service : String
  rule : String
  admin_only : Bool
  expected_error_code : Int
  extra_target_data : List (String × String)
  rbac_test_role : String
  authority : String → String → Bool
  func : List Obj → FuncOutcome

/-- Message of the RbacResourceSetupFailed raised when credential
resolution hits an AttributeError (whose text we model as the missing
attribute name). -/
def setupFailedMsg (e : String) : String :=
  e ++ ": project_id/user_id not found in cls.auth_provider.credentials"

/-- Message of the exceptions.NotFound raised for RbacInvalidService. -/
def invalidServiceMsg (service emsg : String) : String :=
  service ++ " is not a valid service. RbacInvalidService was: " ++ emsg

/-- Message of the exceptions.Forbidden raised when the expected failure
occurred although the role was allowed. -/
def forbiddenMsg (rbac_test_role rule emsg : String) : String :=
  "Role " ++ rbac_test_role ++ " was not allowed to perform " ++ rule ++
    ". exception was: " ++ emsg

/-- Message of the RbacOverPermission raised when the guarded function
succeeded although the role was not allowed. -/
def overPermissionMsg (rbac_test_role rule : String) : String :=
  "OverPermission: Role " ++ rbac_test_role ++ " was allowed to perform " ++
    rule

/-- Message attached by six.reraise in the catch-all branch: the original
error text followed by the name of the exception class that was
expected. -/
def unexpectedMsg (error_details : String) (t : ExcType) : String :=
  error_details ++ " An unexpected exception has occurred: Expected " ++
    "exception was " ++ excTypeName t ++ ", which was not thrown."

/-- The irregular-code notice template of _get_exception_type for 404. -/
def irregularMsgTemplate : String :=
  "NotFound exception was caught for policy action {0}. The service " ++
    "{1} throws a 404 instead of a 403, which is irregular."

/-- _get_exception_type: 403 maps to Forbidden with no irregular message,
404 maps to NotFound with the irregular message, anything else raises
RbacInvalidErrorCode (modelled as Except.error). -/
def getExceptionType (expected_error_code : Int) :
    Except Unit (ExcType × Option String) :=
  if expected_error_code = 403 then
    Except.ok (ExcType.forbidden, none)
  else if expected_error_code = 404 then
    Except.ok (ExcType.notFound, some irregularMsgTemplate)
  else
    Except.error ()

/-- Character-level worker for splitting on a dot. -/
def splitOnDotAux : List Char → List Char → List String
  | [], acc => [String.mk acc.reverse]
  | c :: rest, acc =>
    if c = '.' then
      String.mk acc.reverse :: splitOnDotAux rest []
    else
      splitOnDotAux rest (c :: acc)

/-- The Python str.split call on the separator dot: returns the maximal
dot-free segments, keeping empty segments, and a single-element list
when no dot occurs. -/
def splitOnDot (s : String) : List String :=
  splitOnDotAux s.data []

/-- Loop body of _format_extra_target_data. The accumulator attr_value is
initialised once, before the outer loop, and is not reset between
entries: each iteration starts its getattr traversal from the value the
previous iteration resolved. -/
def formatLoop : Obj → List (String × String) → List (String × Obj) →
    Except String (List (String × Obj))
  | _, [], acc => Except.ok acc
  | attr_value, (user_attribute, attr_string) :: rest, acc =>
    match getattrChain attr_value (splitOnDot attr_string) with
    | Except.ok v => formatLoop v rest (acc ++ [(user_attribute, v)])
    | Except.error a => Except.error a

/-- _format_extra_target_data as written in the source: attr_value starts
at test_obj and is threaded through all entries. -/
def formatExtraTargetData (test_obj : Obj)
    (extra_target_data : List (String × String)) :
    Except String (List (String × Obj)) :=
  formatLoop test_obj extra_target_data []

/-- The AttributeResolver contract as the spec words it (section 4.1):
for each pair, the traversal starts from the root context object. Stated
separately from formatExtraTargetData so the two can be compared. -/
def resolveSpec : Obj → List (String × String) →
    Except String (List (String × Obj))
  | _, [] => Except.ok []
  | context, (user_attribute, attr_string) :: rest =>
    match getattrChain context (splitOnDot attr_string) with
    | Except.ok v =>
      match resolveSpec context rest with
      | Except.ok tl => Except.ok ((user_attribute, v) :: tl)
      | Except.error a => Except.error a
    | Except.error a => Except.error a

/-- Lines 67-69 of wrapper: caller_ref is args[0] when args is nonempty
and args[0] is a test.BaseTestCase instance, else None. -/
def callerRef (inp : WrapperInput) : Option Obj :=
  match inp.args with
  | [] => none
  | a :: _ => if inp.arg0_is_test_case then some a else none

/-- Lines 66-76 of wrapper: resolve
caller_ref.auth_provider.credentials.project_id and likewise user_id,
converting any AttributeError into the error text. Accessing an
attribute on None also raises AttributeError. Returns the caller object
together with both ids on success. -/
def credStep (inp : WrapperInput) : Except String (Obj × Obj × Obj) :=
  match callerRef inp with
  | none => Except.error "auth_provider"
  | some caller =>
    match getattrChain caller ["auth_provider", "credentials", "project_id"] with
    | Except.error a => Except.error a
    | Except.ok project_id =>
      match getattrChain caller ["auth_provider", "credentials", "user_id"] with
      | Except.error a => Except.error a
      | Except.ok user_id => Except.ok (caller, project_id, user_id)

/-- Lines 78-88 of wrapper: compute allowed. With admin_only the
oslo.policy check is skipped and allowed is the comparison of
CONF.rbac.rbac_test_role with the string admin; otherwise the extra
target data is resolved (an AttributeError propagates), an RbacAuthority
is constructed and get_permission is called. The returned event list
records the external calls made by this step. -/
def verdictStep (inp : WrapperInput) (caller project_id user_id : Obj) :
    Except String (Bool × List Event) :=
  if inp.admin_only then
    Except.ok (inp.rbac_test_role == "admin", [])
  else
    match formatExtraTargetData caller inp.extra_target_data with
    | Except.error a => Except.error a
    | Except.ok extra =>
      Except.ok (inp.authority inp.rule inp.rbac_test_role,
        [Event.constructAuthority project_id user_id inp.service extra,
         Event.getPermission inp.rule inp.rbac_test_role])

/-- The permission verdict of lines 78-88, as a function of the input
alone. -/
def computeAllowed (inp : WrapperInput) : Bool :=
  if inp.admin_only then
    inp.rbac_test_role == "admin"
  else
    inp.authority inp.rule inp.rbac_test_role

/-- Lines 93-125 of wrapper: run func(*args) and reconcile its outcome
against allowed. The except clauses are tried in source order:
RbacInvalidService first, then the pair (expected_exception,
RbacActionFailed), then the catch-all reraise; the else clause handles
the normal return. -/
def reconcile (inp : WrapperInput) (allowed : Bool)
    (expected_exception : ExcType) : WrapperResult :=
  match inp.func inp.args with
  | FuncOutcome.success =>
    if allowed then
      WrapperResult.ok
    else
      WrapperResult.overPermission
        (overPermissionMsg inp.rbac_test_role inp.rule)
  | FuncOutcome.raises k emsg =>
    if isInvalidService k then
      WrapperResult.notFoundInvalidService (invalidServiceMsg inp.service emsg)
    else if matchesException expected_exception k || isActionFailed k then
      if allowed then
        WrapperResult.forbidden (forbiddenMsg inp.rbac_test_role inp.rule emsg)
      else
        WrapperResult.ok
    else
      WrapperResult.reraised k (unexpectedMsg emsg expected_exception)

/-- The wrapper closure, lines 65-128. Credential resolution runs first;
its failure raises RbacResourceSetupFailed. Then the verdict is computed
(an AttributeError from _format_extra_target_data propagates raw), then
_get_exception_type classifies expected_error_code (RbacInvalidErrorCode
propagates). Only then is the try block entered: func(*args) runs and
the finally clause calls switch_role, on every path out of the try. The
second component is the trace of external calls. -/
def wrapper (inp : WrapperInput) : WrapperResult × List Event :=
  match credStep inp with
  | Except.error e =>
    (WrapperResult.resourceSetupFailed (setupFailedMsg e), [])
  | Except.ok (caller, project_id, user_id) =>
    match verdictStep inp caller project_id user_id with
    | Except.error a => (WrapperResult.attributeError a, [])
    | Except.ok (allowed, ev0) =>
      match getExceptionType inp.expected_error_code with
      | Except.error _ => (WrapperResult.invalidErrorCode, ev0)
      | Except.ok (expected_exception, _irregular_msg) =>
        (reconcile inp allowed expected_exception,
         ev0 ++ [Event.callFunc inp.args, Event.switchRole])

/-- Recognisers for the trace events, used for counting. -/
def isSwitchRoleEv : Event → Bool
  | Event.switchRole => true
  | _ => false

def isCallFuncEv : Event → Bool
  | Event.callFunc _ => true
  | _ => false

def isGetPermissionEv : Event → Bool
  | Event.getPermission _ _ => true
  | _ => false

def isConstructAuthorityEv : Event → Bool
  | Event.constructAuthority _ _ _ _ => true
  | _ => false

def countSwitchRole (l : List Event) : Nat := l.countP isSwitchRoleEv

def countCallFunc (l : List Event) : Nat := l.countP isCallFuncEv

def countGetPermission (l : List Event) : Nat := l.countP isGetPermissionEv

def countConstructAuthority (l : List Event) : Nat :=
  l.countP isConstructAuthorityEv

/-! Concrete test objects and inputs used by witnesses and
counterexamples. -/

/-- A well-formed test object: auth_provider.credentials carries both a
project_id and a user_id. -/
def credsObjEx : Obj :=
  Obj.node [("project_id", Obj.leaf "pid-1"), ("user_id", Obj.leaf "uid-1")]

def callerObjEx : Obj :=
  Obj.node [("auth_provider", Obj.node [("credentials", credsObjEx)])]

/-- Baseline invocation: admin_only with the admin role, expecting 403,
guarded function succeeds. -/
def inp1 : WrapperInput :=
  { args := [callerObjEx]
    kwargs := []
    arg0_is_test_case := true
    service := "nova"
    rule := "create_server"
    admin_only := true
    expected_error_code := 403
    extra_target_data := []
    rbac_test_role := "admin"
    authority := fun _ _ => false
    func := fun _ => FuncOutcome.success }

/-- Baseline with an unsupported expected error code. -/
def inpC2 : WrapperInput :=
  { inp1 with expected_error_code := 500 }

/-- Baseline with the policy path and a broken extra-target path: the
middle segment missing is absent from the credential object. -/
def inpC4 : WrapperInput :=
  { inp1 with
    admin_only := false
    extra_target_data :=
      [("trust.trustor_user_id", "auth_provider.missing.user_id")] }

/-- Baseline whose guarded function raises an unrecognised exception. -/
def inpC7 : WrapperInput :=
  { inp1 with
    func := fun _ => FuncOutcome.raises (ExcKind.other "ValueError") "boom" }

/-- Baseline with a non-admin role (so allowed is false) whose guarded
function raises the generic RbacActionFailed. -/
def inpC8 : WrapperInput :=
  { inp1 with
    rbac_test_role := "member"
    func := fun _ => FuncOutcome.raises ExcKind.rbacActionFailed "denied" }

/-- Baseline called with no positional arguments at all. -/
def inpC9 : WrapperInput :=
  { inp1 with args := [] }

/-- Two-entry extra target data whose paths are both rooted at the test
object. -/
def c3Obj : Obj :=
  Obj.node [("a", Obj.leaf "1"), ("b", Obj.leaf "2")]

def c3Paths : List (String × String) := [("k1", "a"), ("k2", "b")]

/-! Helper lemmas shared by the claim theorems. -/

theorem isInvalidService_kindOf (t : ExcType) :
    isInvalidService (kindOf t) = false := by
  cases t <;> rfl

theorem matchesException_kindOf (t : ExcType) :
    matchesException t (kindOf t) = true := by
  cases t <;> rfl

theorem verdictStep_counts (inp : WrapperInput)
    (caller project_id user_id : Obj) (allowed : Bool) (ev0 : List Event)
    (h : verdictStep inp caller project_id user_id =
      Except.ok (allowed, ev0)) :
    countSwitchRole ev0 = 0 ∧ countCallFunc ev0 = 0 := by
  unfold verdictStep at h
  split at h
  · simp only [Except.ok.injEq, Prod.mk.injEq] at h
    obtain ⟨-, h2⟩ := h
    subst h2
    simp [countSwitchRole, countCallFunc]
  · split at h
    · simp at h
    · simp only [Except.ok.injEq, Prod.mk.injEq] at h
      obtain ⟨-, h2⟩ := h
      subst h2
      simp [countSwitchRole, countCallFunc, List.countP_cons, List.countP_nil,
        isSwitchRoleEv, isCallFuncEv]

theorem wrapper_fst (inp : WrapperInput) (caller project_id user_id : Obj)
    (hcred : credStep inp = Except.ok (caller, project_id, user_id))
    (allowed : Bool) (ev0 : List Event)
    (hv : verdictStep inp caller project_id user_id =
      Except.ok (allowed, ev0))
    (t : ExcType) (m : Option String)
    (hcode : getExceptionType inp.expected_error_code = Except.ok (t, m)) :
    (wrapper inp).1 = reconcile inp allowed t := by
  simp [wrapper, hcred, hv, hcode]

/-- C1: when the verdict is allowed, a succeeding guarded operation gives
a normal return (Pass) and the expected error kind gives the Forbidden
failure; when the verdict is not allowed, a succeeding guarded operation
gives the RbacOverPermission failure and the expected error kind gives a
normal return (Pass). -/
theorem validate_verdict_vs_outcome (inp : WrapperInput)
    (caller project_id user_id : Obj)
    (hcred : credStep inp = Except.ok (caller, project_id, user_id))
    (allowed : Bool) (ev0 : List Event)
    (hv : verdictStep inp caller project_id user_id =
      Except.ok (allowed, ev0))
    (t : ExcType) (m : Option String)
    (hcode : getExceptionType inp.expected_error_code = Except.ok (t, m)) :
    (allowed = true → inp.func inp.args = FuncOutcome.success →
      (wrapper inp).1 = WrapperResult.ok)
    ∧ (∀ emsg, allowed = true →
        inp.func inp.args = FuncOutcome.raises (kindOf t) emsg →
        (wrapper inp).1 =
          WrapperResult.forbidden
            (forbiddenMsg inp.rbac_test_role inp.rule emsg))
    ∧ (allowed = false → inp.func inp.args = FuncOutcome.success →
        (wrapper inp).1 =
          WrapperResult.overPermission
            (overPermissionMsg inp.rbac_test_role inp.rule))
    ∧ (∀ emsg, allowed = false →
        inp.func inp.args = FuncOutcome.raises (kindOf t) emsg →
        (wrapper inp).1 = WrapperResult.ok) := by
  have hw := wrapper_fst inp caller project_id user_id hcred allowed ev0 hv
    t m hcode
  refine ⟨?_, ?_, ?_, ?_⟩
  · intro ha hf
    subst ha
    simp [hw, reconcile, hf]
  · intro emsg ha hf
    subst ha
    simp [hw, reconcile, hf, isInvalidService_kindOf, matchesException_kindOf]
  · intro ha hf
    subst ha
    simp [hw, reconcile, hf]
  · intro emsg ha hf
    subst ha
    simp [hw, reconcile, hf, isInvalidService_kindOf, matchesException_kindOf]

/-- C1 witness: the baseline invocation (allowed, guarded operation
succeeds) returns normally. -/
theorem validate_verdict_vs_outcome_witness :
    (wrapper inp1).1 = WrapperResult.ok := by
  exact (validate_verdict_vs_outcome inp1 callerObjEx (Obj.leaf "pid-1")
    (Obj.leaf "uid-1") rfl true [] rfl ExcType.forbidden none rfl).1 rfl rfl

/-- C3: with two extra-target entries, the second traversal starts from
the value resolved by the first entry (attr_value is never reset to the
test object), so a path that exists on the root fails; the resolver the
spec describes resolves both entries from the root. -/
theorem format_extra_target_data_chains_across_entries :
    formatExtraTargetData c3Obj c3Paths = Except.error "b"
    ∧ resolveSpec c3Obj c3Paths =
        Except.ok [("k1", Obj.leaf "1"), ("k2", Obj.leaf "2")] :=
  ⟨rfl, rfl⟩

/-- C9: when project_id/user_id resolution hits an AttributeError, the
wrapper raises RbacResourceSetupFailed with the formatted message and
the trace is empty: no authority is built, no permission is queried, the
guarded operation never runs and no role switch happens. -/
theorem missing_credentials_fail_fast (inp : WrapperInput) (e : String)
    (hcred : credStep inp = Except.error e) :
    (wrapper inp).1 = WrapperResult.resourceSetupFailed (setupFailedMsg e)
    ∧ (wrapper inp).2 = [] := by
  simp [wrapper, hcred]

/-- C9 witness: calling the wrapper with no positional arguments fails
with RbacResourceSetupFailed and an empty trace. -/
theorem missing_credentials_fail_fast_witness :
    (wrapper inpC9).1 =
      WrapperResult.resourceSetupFailed (setupFailedMsg "auth_provider")
    ∧ (wrapper inpC9).2 = [] :=
  missing_credentials_fail_fast inpC9 "auth_provider" rfl

/-- C2 counterexample: with an unsupported expected error code (500) the
wrapper raises RbacInvalidErrorCode after the verdict was computed, and
switch_role is never called: _get_exception_type runs before the
try/finally block, so the role-restoration step is skipped on that
path. -/
theorem switch_role_skipped_on_invalid_error_code :
    countSwitchRole (wrapper inpC2).2 = 0
    ∧ (wrapper inpC2).1 = WrapperResult.invalidErrorCode :=
  ⟨rfl, rfl⟩

/-- C2 amended: switch_role runs exactly as often as the guarded
operation is invoked; in particular it runs exactly once whenever
credential resolution, the verdict step and the error-code
classification all succeed, and zero times on the paths that abort
before the try block (credential failure, attribute-resolution failure,
invalid expected error code). -/
theorem switch_role_runs_iff_guarded_op_runs (inp : WrapperInput) :
    countSwitchRole (wrapper inp).2 = countCallFunc (wrapper inp).2
    ∧ (∀ caller project_id user_id allowed ev0 t m,
        credStep inp = Except.ok (caller, project_id, user_id) →
        verdictStep inp caller project_id user_id =
          Except.ok (allowed, ev0) →
        getExceptionType inp.expected_error_code = Except.ok (t, m) →
        countSwitchRole (wrapper inp).2 = 1) := by
  constructor
  · cases h1 : credStep inp with
    | error e => simp [wrapper, h1, countSwitchRole, countCallFunc]
    | ok trip =>
      obtain ⟨caller, project_id, user_id⟩ := trip
      cases h2 : verdictStep inp caller project_id user_id with
      | error a => simp [wrapper, h1, h2, countSwitchRole, countCallFunc]
      | ok pr =>
        obtain ⟨allowed, ev0⟩ := pr
        obtain ⟨hs, hc⟩ :=
          verdictStep_counts inp caller project_id user_id allowed ev0 h2
        cases h3 : getExceptionType inp.expected_error_code with
        | error u =>
          simpa [wrapper, h1, h2, h3] using hs.trans hc.symm
        | ok pr2 =>
          obtain ⟨t, m⟩ := pr2
          simp only [countSwitchRole, countCallFunc] at hs hc ⊢
          simp [wrapper, h1, h2, h3, List.countP_append, List.countP_cons,
            hs, hc, isSwitchRoleEv, isCallFuncEv]
  · intro caller project_id user_id allowed ev0 t m h1 h2 h3
    obtain ⟨hs, hc⟩ :=
      verdictStep_counts inp caller project_id user_id allowed ev0 h2
    simp only [countSwitchRole] at hs
    simp [wrapper, h1, h2, h3, countSwitchRole, List.countP_append,
      List.countP_cons, hs, isSwitchRoleEv]

/-- C2 witness: the baseline invocation reaches the guarded operation
and calls switch_role exactly once. -/
theorem switch_role_runs_iff_guarded_op_runs_witness :
    countSwitchRole (wrapper inp1).2 = 1 :=
  (switch_role_runs_iff_guarded_op_runs inp1).2 callerObjEx
    (Obj.leaf "pid-1") (Obj.leaf "uid-1") true [] ExcType.forbidden none
    rfl rfl rfl

/-- C4: an AttributeError raised while resolving the extra target data
propagates out of the wrapper unchanged: the result is the raw
attribute-resolution failure, the guarded operation never runs, and no
policy outcome is produced. -/
theorem attribute_resolution_error_propagates (inp : WrapperInput)
    (caller project_id user_id : Obj)
    (hcred : credStep inp = Except.ok (caller, project_id, user_id))
    (hadmin : inp.admin_only = false)
    (attr : String)
    (hfmt : formatExtraTargetData caller inp.extra_target_data =
      Except.error attr) :
    (wrapper inp).1 = WrapperResult.attributeError attr
    ∧ (wrapper inp).2 = [] := by
  have hv : verdictStep inp caller project_id user_id =
      Except.error attr := by
    simp [verdictStep, hadmin, hfmt]
  simp [wrapper, hcred, hv]

/-- C4 witness: the broken path auth_provider.missing.user_id fails at
the segment missing and the wrapper propagates that failure with an
empty trace. -/
theorem attribute_resolution_error_propagates_witness :
    (wrapper inpC4).1 = WrapperResult.attributeError "missing"
    ∧ (wrapper inpC4).2 = [] :=
  attribute_resolution_error_propagates inpC4 callerObjEx
    (Obj.leaf "pid-1") (Obj.leaf "uid-1") rfl rfl "missing" rfl

/-- C5: _get_exception_type maps 403 to Forbidden with no irregular
notice, 404 to NotFound with the irregular notice template, raises
RbacInvalidErrorCode on every other code, and whenever the classifier
fails the guarded operation is never invoked. -/
theorem exception_type_classification :
    getExceptionType 403 = Except.ok (ExcType.forbidden, none)
    ∧ getExceptionType 404 =
        Except.ok (ExcType.notFound, some irregularMsgTemplate)
    ∧ (∀ c : Int, c ≠ 403 → c ≠ 404 → getExceptionType c = Except.error ())
    ∧ (∀ inp : WrapperInput,
        getExceptionType inp.expected_error_code = Except.error () →
        countCallFunc (wrapper inp).2 = 0) := by
  refine ⟨rfl, rfl, ?_, ?_⟩
  · intro c h1 h2
    simp [getExceptionType, h1, h2]
  · intro inp h
    cases h1 : credStep inp with
    | error e => simp [wrapper, h1, countCallFunc]
    | ok trip =>
      obtain ⟨caller, project_id, user_id⟩ := trip
      cases h2 : verdictStep inp caller project_id user_id with
      | error a => simp [wrapper, h1, h2, countCallFunc]
      | ok pr =>
        obtain ⟨allowed, ev0⟩ := pr
        have hc :=
          (verdictStep_counts inp caller project_id user_id allowed ev0 h2).2
        simpa [wrapper, h1, h2, h] using hc

/-- C5 witness: code 500 is rejected, and on the concrete invocation
carrying it the guarded operation is never invoked. -/
theorem exception_type_classification_witness :
    getExceptionType 500 = Except.error ()
    ∧ countCallFunc (wrapper inpC2).2 = 0 := by
  refine ⟨exception_type_classification.2.2.1 500 (by decide) (by decide),
    exception_type_classification.2.2.2 inpC2 ?_⟩
  exact exception_type_classification.2.2.1 500 (by decide) (by decide)

/-- C6: with admin_only set, no RbacAuthority is constructed and
get_permission is never called, the verdict step yields exactly the
comparison of the configured test role with the string admin, and the
whole invocation is independent of the authority oracle. -/
theorem admin_only_skips_authority (inp : WrapperInput)
    (h : inp.admin_only = true) :
    countConstructAuthority (wrapper inp).2 = 0
    ∧ countGetPermission (wrapper inp).2 = 0
    ∧ computeAllowed inp = (inp.rbac_test_role == "admin")
    ∧ (∀ caller project_id user_id : Obj,
        verdictStep inp caller project_id user_id =
          Except.ok (inp.rbac_test_role == "admin", []))
    ∧ (∀ auth2 : String → String → Bool,
        wrapper { inp with authority := auth2 } = wrapper inp) := by
  have hv : ∀ caller project_id user_id : Obj,
      verdictStep inp caller project_id user_id =
        Except.ok (inp.rbac_test_role == "admin", []) := by
    intro caller project_id user_id
    simp [verdictStep, h]
  have hcounts : countConstructAuthority (wrapper inp).2 = 0
      ∧ countGetPermission (wrapper inp).2 = 0 := by
    cases h1 : credStep inp with
    | error e =>
      simp [wrapper, h1, countConstructAuthority, countGetPermission]
    | ok trip =>
      obtain ⟨caller, project_id, user_id⟩ := trip
      cases h3 : getExceptionType inp.expected_error_code with
      | error u =>
        simp [wrapper, h1, hv, h3, countConstructAuthority,
          countGetPermission]
      | ok pr2 =>
        obtain ⟨t, m⟩ := pr2
        simp [wrapper, h1, hv, h3, countConstructAuthority,
          countGetPermission, List.countP_cons, List.countP_nil,
          isConstructAuthorityEv, isGetPermissionEv]
  refine ⟨hcounts.1, hcounts.2, by simp [computeAllowed, h], hv, ?_⟩
  intro auth2
  simp only [wrapper, credStep, callerRef, verdictStep, reconcile, h,
    ite_true, if_true]

/-- C6 witness: the baseline admin_only invocation constructs no
authority and queries no permission, and its verdict is the role
comparison with admin. -/
theorem admin_only_skips_authority_witness :
    countConstructAuthority (wrapper inp1).2 = 0
    ∧ countGetPermission (wrapper inp1).2 = 0
    ∧ computeAllowed inp1 = (inp1.rbac_test_role == "admin") := by
  have h := admin_only_skips_authority inp1 rfl
  exact ⟨h.1, h.2.1, h.2.2.1⟩

/-- C7: an exception that is not RbacInvalidService, not the expected
exception kind and not RbacActionFailed is reraised with the same kind
and a message carrying the original text and the name of the expected
exception class, under either verdict; it is never a normal return. -/
theorem unexpected_exception_reraised (inp : WrapperInput)
    (caller project_id user_id : Obj)
    (hcred : credStep inp = Except.ok (caller, project_id, user_id))
    (allowed : Bool) (ev0 : List Event)
    (hv : verdictStep inp caller project_id user_id =
      Except.ok (allowed, ev0))
    (t : ExcType) (m : Option String)
    (hcode : getExceptionType inp.expected_error_code = Except.ok (t, m))
    (k : ExcKind) (emsg : String)
    (hk1 : isInvalidService k = false)
    (hk2 : isActionFailed k = false)
    (hk3 : matchesException t k = false)
    (hf : inp.func inp.args = FuncOutcome.raises k emsg) :
    (wrapper inp).1 = WrapperResult.reraised k (unexpectedMsg emsg t)
    ∧ (wrapper inp).1 ≠ WrapperResult.ok := by
  have hw := wrapper_fst inp caller project_id user_id hcred allowed ev0 hv
    t m hcode
  have hr : (wrapper inp).1 =
      WrapperResult.reraised k (unexpectedMsg emsg t) := by
    rw [hw]
    simp [reconcile, hf, hk1, hk2, hk3]
  exact ⟨hr, by rw [hr]; simp⟩

/-- C7 witness: a ValueError from the guarded operation is reraised with
the diagnostic message naming the expected Forbidden. -/
theorem unexpected_exception_reraised_witness :
    (wrapper inpC7).1 =
      WrapperResult.reraised (ExcKind.other "ValueError")
        (unexpectedMsg "boom" ExcType.forbidden) :=
  (unexpected_exception_reraised inpC7 callerObjEx (Obj.leaf "pid-1")
    (Obj.leaf "uid-1") rfl true [] rfl ExcType.forbidden none rfl
    (ExcKind.other "ValueError") "boom" rfl rfl rfl rfl).1

/-- C8: RbacActionFailed from the guarded operation is handled by the
same except clause as the expected exception: Forbidden is raised when
the verdict was allowed, and the wrapper returns normally when it was
not allowed, whichever expected error code was configured. -/
theorem action_failed_reconciled_like_expected (inp : WrapperInput)
    (caller project_id user_id : Obj)
    (hcred : credStep inp = Except.ok (caller, project_id, user_id))
    (allowed : Bool) (ev0 : List Event)
    (hv : verdictStep inp caller project_id user_id =
      Except.ok (allowed, ev0))
    (t : ExcType) (m : Option String)
    (hcode : getExceptionType inp.expected_error_code = Except.ok (t, m))
    (emsg : String)
    (hf : inp.func inp.args =
      FuncOutcome.raises ExcKind.rbacActionFailed emsg) :
    (allowed = true →
      (wrapper inp).1 =
        WrapperResult.forbidden
          (forbiddenMsg inp.rbac_test_role inp.rule emsg))
    ∧ (allowed = false → (wrapper inp).1 = WrapperResult.ok) := by
  have hw := wrapper_fst inp caller project_id user_id hcred allowed ev0 hv
    t m hcode
  constructor <;> intro ha <;> subst ha <;> rw [hw] <;>
    simp [reconcile, hf, isInvalidService, isActionFailed]

/-- C8 witness: under a non-admin role (verdict not allowed) the generic
RbacActionFailed counts as the expected denial and the wrapper returns
normally. -/
theorem action_failed_reconciled_like_expected_witness :
    (wrapper inpC8).1 = WrapperResult.ok :=
  (action_failed_reconciled_like_expected inpC8 callerObjEx
    (Obj.leaf "pid-1") (Obj.leaf "uid-1") rfl false [] rfl
    ExcType.forbidden none rfl "denied" rfl).2 rfl

/-- C10: the wrapper accepts keyword arguments but never passes them on:
the whole invocation, result and trace alike, is unchanged under any
replacement of the keyword arguments, and the guarded operation receives
the positional arguments only. -/
theorem kwargs_discarded (inp : WrapperInput) (kw : List (String × Obj)) :
    wrapper { inp with kwargs := kw } = wrapper inp := by
  cases inp
  rfl

end Rbac
